import Mathlib

/-!
Verification of the miasma campaign orchestration engine.

Shallow embedding of the backend services:
 - `app/models/campaign.py`, `app/models/submission.py` (data model)
 - `app/services/campaign_executor.py` (executor loop, submission coordinator)
 - `app/services/campaign_service.py` (CRUD, status transition table)
 - `app/services/lookup_service.py` (lookup fan-out and aggregation)
 - `app/services/accuracy_service.py` (accuracy scorer)
 - `app/services/submission_engine.py` (submitter registry)

External effects (plugin calls, timeouts, clock, cooperative cancellation,
concurrent status writes) are modelled as explicit environment parameters;
the database is modelled as explicit state passed through each operation.
-/

namespace Miasma

/-- `CampaignStatus` enum from `app/models/campaign.py`. -/
inductive CampaignStatus
  | draft
  | scheduled
  | running
  | paused
  | completed
  | failed
deriving DecidableEq, Repr

/-- The string `.value` of a `CampaignStatus` member. -/
def CampaignStatus.value : CampaignStatus → String
  | .draft => "draft"
  | .scheduled => "scheduled"
  | .running => "running"
  | .paused => "paused"
  | .completed => "completed"
  | .failed => "failed"

/-- Parse a status string back to the enum (SQLAlchemy coercion on assignment). -/
def CampaignStatus.ofValue : String → Option CampaignStatus
  | "draft" => some .draft
  | "scheduled" => some .scheduled
  | "running" => some .running
  | "paused" => some .paused
  | "completed" => some .completed
  | "failed" => some .failed
  | _ => none

/-- `SubmissionStatus` enum from `app/models/submission.py`. -/
inductive SubmissionStatus
  | pending
  | submitted
  | confirmed
  | failed
  | skipped
deriving DecidableEq, Repr

/-- `Campaign` row (`app/models/campaign.py`); only the columns the engine
reads or writes. Counters are `Nat` (the code folds a NULL counter to 0 via
`or 0` before incrementing). -/
structure Campaign where
  id : Nat
  user_id : Nat
  name : String
  description : Option String := none
  status : CampaignStatus
  target_first_name : Option String := none
  target_last_name : Option String := none
  target_city : Option String := none
  target_state : Option String := none
  target_age : Option Int := none
  target_sites : Option (List String) := none
  target_count : Int := 10
  submissions_completed : Nat := 0
  submissions_failed : Nat := 0
deriving DecidableEq, Repr

/-- `Submission` row (`app/models/submission.py`). `profile_data` is an opaque
payload identifier: the engine only passes it through to the plugin. -/
structure Submission where
  campaign_id : Nat
  site : String
  status : SubmissionStatus
  profile_data : Nat
  reference_id : Option String := none
  error_message : Option String := none
  submitted_at : Option Nat := none
deriving DecidableEq, Repr

/-- Python `str.lower()` (ASCII case mapping, as `Char.toLower` provides),
written over the character list so that it evaluates by kernel reduction. -/
def pyLower (s : String) : String := String.mk (s.toList.map Char.toLower)

/-- Python `str.strip()`: drop leading and trailing whitespace. -/
def pyStrip (s : String) : String :=
  String.mk
    (((s.toList.dropWhile Char.isWhitespace).reverse.dropWhile
      Char.isWhitespace).reverse)

/-- Python slicing `s[:n]`: the first `n` characters. -/
def pyTake (s : String) (n : Nat) : String := String.mk (s.toList.take n)

/-- Keys of `SUBMITTER_REGISTRY` in `app/services/submission_engine.py`. -/
def SUBMITTER_REGISTRY : List String :=
  ["aboutme", "gravatar", "linktree", "directory", "marketing", "manual"]

/-- `get_submitter` (`submission_engine.py`): resolve a site key, lowercased,
against the registry; `none` when no submitter exists for the site. -/
def get_submitter (site_name : String) : Option String :=
  if SUBMITTER_REGISTRY.contains (pyLower site_name) then some (pyLower site_name)
  else none

/-- Outcome of one `submitter.execute(profile)` call as observed through
`asyncio.wait_for(..., timeout=120)` in `_submit_single`:
the plugin returns a result (`success` true/false), the wait times out,
or the call raises. -/
inductive PluginOutcome
  | success (reference_id : Option String)
  | failure (error : Option String)
  | timeout
  | raised (msg : String)
deriving DecidableEq, Repr

/-- Environment of a campaign run: plugin behaviour per (site, profile),
the clock, and the step-indexed cooperative-cancellation flag checked at the
top of each loop iteration. -/
structure ExecEnv where
  exec : String → Nat → PluginOutcome
  now : Nat
  cancelled : Nat → Bool

/-- Store state a single campaign run touches: the campaign row and the
campaign's submission rows, indexed by position (= id order). -/
structure ExecState where
  campaign : Campaign
  subs : List Submission
deriving DecidableEq, Repr

/-- Python `result.error or "Unknown error"`: `None` and the empty string are
both falsy. -/
def orUnknown : Option String → String
  | none => "Unknown error"
  | some s => if s = "" then "Unknown error" else s

/-- Which campaign counter a submission outcome increments. -/
inductive CounterBump
  | completedCount
  | failedCount
deriving DecidableEq, Repr

/-- The shared tail of every `_submit_single` outcome branch: write the
unit's new state and, when the owning campaign row is found (`if campaign:`,
i.e. its id matches), increment the corresponding counter; both writes are
committed together. -/
def applyOutcome (st : ExecState) (sid : Nat) (sub' : Submission)
    (bump : CounterBump) : ExecState :=
  let c := st.campaign
  let c' :=
    if c.id = sub'.campaign_id then
      match bump with
      | CounterBump.completedCount =>
        { c with submissions_completed := c.submissions_completed + 1 }
      | CounterBump.failedCount =>
        { c with submissions_failed := c.submissions_failed + 1 }
    else c
  { campaign := c', subs := st.subs.set sid sub' }

/-- `CampaignExecutor._submit_single` (`campaign_executor.py` lines 244-313):
process one submission id. Missing or non-pending unit: no-op. No registered
submitter: mark `skipped`, count as failed. Otherwise dispatch to the plugin
under the 120s timeout and record the outcome: success → `submitted` with
timestamp and reference id, counted completed; business failure → `failed`
with the truncated message, counted failed; timeout → `failed` with the
timeout message after rolling back the partial transaction, counted failed;
unexpected exception → `failed` with the truncated exception text, counted
failed. -/
def submitSingle (env : ExecEnv) (st : ExecState) (sid : Nat) : ExecState :=
  match st.subs.get? sid with
  | none => st
  | some sub =>
    if sub.status ≠ SubmissionStatus.pending then st
    else
      match get_submitter sub.site with
      | none =>
        applyOutcome st sid
          { sub with
            status := SubmissionStatus.skipped
            error_message := some ("No submitter for site: " ++ sub.site) }
          CounterBump.failedCount
      | some _ =>
        match env.exec sub.site sub.profile_data with
        | .success rid =>
          applyOutcome st sid
            { sub with
              status := SubmissionStatus.submitted
              submitted_at := some env.now
              reference_id := rid }
            CounterBump.completedCount
        | .failure err =>
          applyOutcome st sid
            { sub with
              status := SubmissionStatus.failed
              error_message := some (pyTake (orUnknown err) 500) }
            CounterBump.failedCount
        | .timeout =>
          applyOutcome st sid
            { sub with
              status := SubmissionStatus.failed
              error_message := some "Submission timed out after 120s" }
            CounterBump.failedCount
        | .raised msg =>
          applyOutcome st sid
            { sub with
              status := SubmissionStatus.failed
              error_message := some (pyTake msg 500) }
            CounterBump.failedCount

/-- `CampaignService.ALLOWED_TRANSITIONS` (`campaign_service.py` lines 21-28),
with `.get(current, set())` folded in: an unknown key allows nothing. -/
def ALLOWED_TRANSITIONS : String → List String
  | "draft" => ["scheduled", "running"]
  | "scheduled" => ["running", "paused", "draft"]
  | "running" => ["paused", "completed", "failed"]
  | "paused" => ["running", "draft"]
  | "completed" => ["draft"]
  | "failed" => ["draft"]
  | _ => []

/-- An external status write landing between loop iterations, performed through
the service's transition check (`update_campaign`): applied only when the
transition is in the allowed table, else the write raises and changes nothing. -/
def applyExternalStatus (c : Campaign) : Option String → Campaign
  | none => c
  | some ns =>
    if (ALLOWED_TRANSITIONS c.status.value).contains ns
    then { c with status := (CampaignStatus.ofValue ns).getD c.status }
    else c

/-- Result of one executor run: the final store state, every intermediate
store state the run produced (in order), and the submission ids actually
dispatched to `_submit_single`. -/
structure RunResult where
  final : ExecState
  trace : List ExecState
  dispatched : List Nat
deriving Repr

/-- The per-unit loop shared by `_execute_campaign` (lines 137-164) and
`_resume_campaign` (lines 206-228): at each step check cooperative
cancellation, let an external status write land, re-read the campaign status
and stop silently unless it is still `running`, otherwise dispatch the unit
and continue. After the last unit, re-read once more and transition
`running → completed`. `k` is the step index into the environment. -/
def runUnits (env : ExecEnv) (interf : Nat → Option String) :
    Nat → List Nat → ExecState → RunResult
  | k, [], st =>
    let st1 := { st with campaign := applyExternalStatus st.campaign (interf k) }
    let st2 :=
      if st1.campaign.status = CampaignStatus.running
      then { st1 with campaign := { st1.campaign with status := CampaignStatus.completed } }
      else st1
    ⟨st2, [st2], []⟩
  | k, sid :: rest, st =>
    if env.cancelled k then ⟨st, [st], []⟩
    else
      let st1 := { st with campaign := applyExternalStatus st.campaign (interf k) }
      if st1.campaign.status ≠ CampaignStatus.running then ⟨st1, [st1], []⟩
      else
        let st2 := submitSingle env st1 sid
        let r := runUnits env interf (k + 1) rest st2
        ⟨r.final, st1 :: st2 :: r.trace, sid :: r.dispatched⟩

/-- Bulk creation of submission units in `_execute_campaign` (lines 106-117):
one `pending` unit per (profile × site), profiles outermost. -/
def mkSubmissions (cid : Nat) (profiles : List Nat) (sites : List String) :
    List Submission :=
  (profiles.map (fun p => sites.map (fun site =>
    { campaign_id := cid
      site := site
      status := SubmissionStatus.pending
      profile_data := p : Submission }))).flatten

/-- `CampaignExecutor._execute_campaign` (lines 74-178), with the generator
call abstracted into the `profiles` argument: empty target-site list fails
the campaign immediately; an empty (profile × site) cross product completes
it immediately; otherwise the unit loop runs over all created units. -/
def executeCampaign (env : ExecEnv) (interf : Nat → Option String)
    (profiles : List Nat) (c : Campaign) : RunResult :=
  let target_sites := c.target_sites.getD []
  if target_sites.isEmpty then
    let st : ExecState := ⟨{ c with status := CampaignStatus.failed }, []⟩
    ⟨st, [st], []⟩
  else
    let subs := mkSubmissions c.id profiles target_sites
    if subs.isEmpty then
      let st : ExecState := ⟨{ c with status := CampaignStatus.completed }, subs⟩
      ⟨st, [st], []⟩
    else
      runUnits env interf 0 (List.range subs.length) ⟨c, subs⟩

/-- Ids (positions, = id order) of the campaign's submissions still `pending`:
the query at the top of `_resume_campaign` (lines 184-193). -/
def pendingIds (subs : List Submission) : List Nat :=
  (List.range subs.length).filter (fun i =>
    match subs.get? i with
    | some s => s.status = SubmissionStatus.pending
    | none => false)

/-- `CampaignExecutor._resume_campaign` (lines 180-242): no pending units
means an immediate unconditional transition to `completed`; otherwise the
shared unit loop runs over exactly the pending units. -/
def resumeCampaign (env : ExecEnv) (interf : Nat → Option String)
    (st0 : ExecState) : RunResult :=
  let pending := pendingIds st0.subs
  if pending.isEmpty then
    let st : ExecState :=
      { st0 with campaign := { st0.campaign with status := CampaignStatus.completed } }
    ⟨st, [st], []⟩
  else
    runUnits env interf 0 pending st0

/-- Configured limits from `app/core/config.py` (defaults: 10 campaigns per
user, 100 submissions per campaign). -/
structure Settings where
  MAX_CAMPAIGNS_PER_USER : Nat := 10
  MAX_SUBMISSIONS_PER_CAMPAIGN : Int := 100

/-- `CampaignService.create_campaign` (`campaign_service.py` lines 30-64):
raise when the user already has `MAX_CAMPAIGNS_PER_USER` campaigns; otherwise
create a `draft` campaign whose `target_count` is silently clamped to
`MAX_SUBMISSIONS_PER_CAMPAIGN`. `newId` is the id the store assigns. -/
def create_campaign (settings : Settings) (store : List Campaign) (user_id : Nat)
    (name : String) (description : Option String) (target_sites : Option (List String))
    (target_count : Int) (newId : Nat) : Except String Campaign :=
  let current_count := (store.filter (fun c => c.user_id = user_id)).length
  if current_count ≥ settings.MAX_CAMPAIGNS_PER_USER then
    Except.error ("Campaign limit reached (" ++
      toString settings.MAX_CAMPAIGNS_PER_USER ++ ")")
  else
    Except.ok
      { id := newId
        user_id := user_id
        name := name
        description := description
        target_sites := target_sites
        target_count := min target_count settings.MAX_SUBMISSIONS_PER_CAMPAIGN
        status := CampaignStatus.draft }

/-- `CampaignService.get_campaign` (lines 66-80): select by id AND owning
user id. -/
def get_campaign (store : List Campaign) (campaign_id user_id : Nat) :
    Option Campaign :=
  store.find? (fun c => c.id = campaign_id && c.user_id = user_id)

/-- The keyword updates `CampaignService.update_campaign` accepts; a key
present with Python `None` behaves like an absent key, so `Option` models
both at once. -/
structure CampaignUpdates where
  status : Option String := none
  name : Option String := none
  description : Option String := none
  target_sites : Option (List String) := none
  target_count : Option Int := none

/-- The non-status field updates of `update_campaign` (lines 147-149), applied
in the order the code iterates them. -/
def applyFieldUpdates (c : Campaign) (u : CampaignUpdates) : Campaign :=
  let c1 := match u.name with | some v => { c with name := v } | none => c
  let c2 := match u.description with | some v => { c1 with description := some v } | none => c1
  let c3 := match u.target_sites with | some v => { c2 with target_sites := some v } | none => c2
  match u.target_count with | some v => { c3 with target_count := v } | none => c3

/-- Replace the row the service fetched and mutated. -/
def replaceCampaign (store : List Campaign) (campaign_id user_id : Nat)
    (c : Campaign) : List Campaign :=
  store.map (fun x => if x.id = campaign_id && x.user_id = user_id then c else x)

/-- `CampaignService.update_campaign` (lines 121-155): returns `ok none` when
the campaign is not found (store untouched); raises a `ValueError` naming the
attempted transition when the requested status change is outside
`ALLOWED_TRANSITIONS` — the raise happens before any field is assigned, so on
rejection nothing is mutated; otherwise applies the status change and the
remaining field updates and commits. -/
def update_campaign (store : List Campaign) (campaign_id user_id : Nat)
    (u : CampaignUpdates) : Except String (Option (Campaign × List Campaign)) :=
  match get_campaign store campaign_id user_id with
  | none => Except.ok none
  | some c =>
    match u.status with
    | some new_status =>
      let current := c.status.value
      if (ALLOWED_TRANSITIONS current).contains new_status then
        let c1 := { c with status := (CampaignStatus.ofValue new_status).getD c.status }
        let c2 := applyFieldUpdates c1 u
        Except.ok (some (c2, replaceCampaign store campaign_id user_id c2))
      else
        Except.error ("Cannot transition from '" ++ current ++ "' to '" ++
          new_status ++ "'")
    | none =>
      let c2 := applyFieldUpdates c u
      Except.ok (some (c2, replaceCampaign store campaign_id user_id c2))

/-- `CampaignService.delete_campaign` (lines 157-174): `False` (store
untouched) when the campaign is not found for this user, else delete it. -/
def delete_campaign (store : List Campaign) (campaign_id user_id : Nat) :
    Bool × List Campaign :=
  match get_campaign store campaign_id user_id with
  | none => (false, store)
  | some _ =>
    (true, store.filter (fun x => !(x.id = campaign_id && x.user_id = user_id)))

/-- Keys of `LookupService.SCRAPERS` (`lookup_service.py` lines 30-37). -/
def SCRAPERS : List String :=
  ["truepeoplesearch", "fastpeoplesearch", "nuwber", "cyberbackgroundchecks",
   "usphonebook", "radaris"]

/-- One record inside a source's `data["results"]` list (the per-record dict
shape consumed by the accuracy scorer). `phones` is the fallback key the
scorer reads when `phone_numbers` is missing or empty. -/
structure PersonRecordData where
  name : Option String := none
  age : Option Int := none
  location : Option String := none
  addresses : List String := []
  phone_numbers : List String := []
  phones : List String := []
  emails : List String := []
deriving DecidableEq, Repr

/-- One per-source result dict as built by `ScraperResult.to_dict` plus the
exception fallback in `search_person`: `results` stands for
`data.get("results", [])`. -/
structure SourceResult where
  source : String := ""
  success : Bool
  results : List PersonRecordData := []
  error : Option String := none
deriving DecidableEq, Repr

/-- The six source-enable flags from `app/core/config.py` (lines 135-140). -/
structure LookupSettings where
  ENABLE_TRUEPEOPLESEARCH : Bool := false
  ENABLE_FASTPEOPLESEARCH : Bool := false
  ENABLE_NUWBER : Bool := false
  ENABLE_CYBERBACKGROUNDCHECKS : Bool := false
  ENABLE_USPHONEBOOK : Bool := false
  ENABLE_RADARIS : Bool := true

/-- `LookupService._get_enabled_sources` (lines 153-171). -/
def get_enabled_sources (ls : LookupSettings) : List String :=
  let enabled :=
    (if ls.ENABLE_TRUEPEOPLESEARCH then ["truepeoplesearch"] else []) ++
    (if ls.ENABLE_FASTPEOPLESEARCH then ["fastpeoplesearch"] else []) ++
    (if ls.ENABLE_NUWBER then ["nuwber"] else []) ++
    (if ls.ENABLE_CYBERBACKGROUNDCHECKS then ["cyberbackgroundchecks"] else []) ++
    (if ls.ENABLE_USPHONEBOOK then ["usphonebook"] else []) ++
    (if ls.ENABLE_RADARIS then ["radaris"] else [])
  enabled.filter (fun s => SCRAPERS.contains s)

/-- Behaviour of `scraper.scrape` per source key: either a result dict or a
raised exception with its message. -/
structure LookupEnv where
  scrape : String → Except String SourceResult

/-- The envelope `search_person` returns. The failure envelope carries only
`success`, `error` and `results`; the remaining fields default to 0. -/
structure LookupEnvelope where
  success : Bool
  error : Option String := none
  sources_searched : Nat := 0
  sources_successful : Nat := 0
  total_records_found : Nat := 0
  results : List SourceResult := []
deriving DecidableEq, Repr

/-- `LookupService.search_person` (lines 39-124): resolve the requested
source keys (explicit list filtered against the registry, or the enabled
set); empty resolution returns a `success=false` envelope; otherwise search
each source sequentially, converting a raised exception into a failed-source
result, and aggregate over the successful results. -/
def search_person (env : LookupEnv) (ls : LookupSettings)
    (sources : Option (List String)) : LookupEnvelope :=
  let sources' :=
    match sources with
    | none => get_enabled_sources ls
    | some l => l.filter (fun s => SCRAPERS.contains s)
  if sources'.isEmpty then
    { success := false, error := some "No valid sources specified", results := [] }
  else
    let results := sources'.map (fun s =>
      match env.scrape s with
      | Except.ok r => r
      | Except.error e =>
        { source := s, success := false, results := [], error := some e })
    let successful := results.filter (fun r => r.success)
    { success := true
      sources_searched := sources'.length
      sources_successful := successful.length
      total_records_found := (successful.map (fun r => r.results.length)).sum
      results := results }

/-- `_normalize_phone` (`accuracy_service.py` lines 109-111). -/
def normalize_phone (phone : String) : String :=
  String.mk (phone.toList.filter Char.isDigit)

/-- Python substring test `pat in hay`. -/
def strContains (hay pat : String) : Bool :=
  hay.toList.tails.any (fun t => pat.toList.isPrefixOf t)

/-- One `{"total": _, "accurate": _}` cell of the scorer's breakdown. -/
structure CategoryCount where
  total : Nat := 0
  accurate : Nat := 0
deriving DecidableEq, Repr

/-- Tally one data point: the total always moves, the accurate count moves
when the point matched. -/
def CategoryCount.bump (cc : CategoryCount) (acc : Bool) : CategoryCount :=
  { total := cc.total + 1, accurate := cc.accurate + (if acc then 1 else 0) }

/-- The five-category breakdown dict of `calculate_accuracy`. -/
structure Breakdown where
  names : CategoryCount := {}
  addresses : CategoryCount := {}
  phones : CategoryCount := {}
  ages : CategoryCount := {}
  emails : CategoryCount := {}
deriving DecidableEq, Repr

/-- The `real_info` dict of known-truth attributes. -/
structure RealInfo where
  first_name : Option String := none
  last_name : Option String := none
  city : Option String := none
  state : Option String := none
  age : Option Int := none
  phones : List String := []
  emails : List String := []

/-- The normalized truth values computed at the top of `calculate_accuracy`
(lines 32-38). -/
structure RealNorm where
  real_first : String
  real_last : String
  real_city : String
  real_state : String
  real_age : Option Int
  real_phones : List String
  real_emails : List String

/-- Lines 32-38 of `calculate_accuracy`: strip/lower the name and location
truth, normalize the phone set (dropping falsy entries), lower the email set. -/
def RealInfo.norm (r : RealInfo) : RealNorm :=
  { real_first := pyLower (pyStrip (r.first_name.getD ""))
    real_last := pyLower (pyStrip (r.last_name.getD ""))
    real_city := pyLower (pyStrip (r.city.getD ""))
    real_state := pyLower (pyStrip (r.state.getD ""))
    real_age := r.age
    real_phones := (r.phones.filter (fun p => p ≠ "")).map normalize_phone
    real_emails := (r.emails.filter (fun e => e ≠ "")).map
      (fun e => pyLower (pyStrip e)) }

/-- The per-record body of `calculate_accuracy`'s loop (lines 47-95):
evaluate up to five categories for one record and add to the tallies. -/
def recordBreakdown (t : RealNorm) (b : Breakdown) (record : PersonRecordData) :
    Breakdown :=
  let name := pyLower (pyStrip (record.name.getD ""))
  let b :=
    if name ≠ "" then
      let acc := t.real_first ≠ "" && t.real_last ≠ "" &&
        strContains name t.real_first && strContains name t.real_last
      { b with names := b.names.bump acc }
    else b
  let b :=
    match record.age with
    | none => b
    | some record_age =>
      let acc := match t.real_age with
        | none => false
        | some a => decide ((record_age - a).natAbs ≤ 1)
      { b with ages := b.ages.bump acc }
  let addresses := record.addresses ++
    (match record.location with
     | some loc => if loc ≠ "" then [loc] else []
     | none => [])
  let b := addresses.foldl (fun b addr =>
    let addr_str := pyLower addr
    if addr_str ≠ "" then
      let acc := t.real_city ≠ "" && t.real_state ≠ "" &&
        strContains addr_str t.real_city && strContains addr_str t.real_state
      { b with addresses := b.addresses.bump acc }
    else b) b
  let phoneList :=
    if record.phone_numbers.isEmpty then record.phones else record.phone_numbers
  let b := phoneList.foldl (fun b phone =>
    if phone ≠ "" then
      let acc := !t.real_phones.isEmpty &&
        t.real_phones.contains (normalize_phone phone)
      { b with phones := b.phones.bump acc }
    else b) b
  record.emails.foldl (fun b email =>
    if email ≠ "" then
      let acc := !t.real_emails.isEmpty &&
        t.real_emails.contains (pyLower (pyStrip email))
      { b with emails := b.emails.bump acc }
    else b) b

/-- Python `round` to the nearest integer, ties to even (banker's rounding),
on exact rationals. -/
def roundHalfEven (q : ℚ) : ℤ :=
  let fl := ⌊q⌋
  let f := q - (fl : ℚ)
  if f < 1/2 then fl
  else if 1/2 < f then fl + 1
  else if fl % 2 = 0 then fl else fl + 1

/-- Python `round(x, 1)` on exact rationals. -/
def pyRound1 (q : ℚ) : ℚ := (roundHalfEven (q * 10) : ℚ) / 10

/-- The result dict of `calculate_accuracy` (lines 101-106), with the score
as an exact rational. -/
structure AccuracyResult where
  accuracy_score : ℚ
  data_points_total : Nat
  data_points_accurate : Nat
  breakdown : Breakdown
deriving DecidableEq, Repr

/-- Sum of the per-category totals (`sum(cat["total"] ...)`, line 97). -/
def Breakdown.totalSum (b : Breakdown) : Nat :=
  b.names.total + b.addresses.total + b.phones.total + b.ages.total + b.emails.total

/-- Sum of the per-category accurate counts (line 98). -/
def Breakdown.accurateSum (b : Breakdown) : Nat :=
  b.names.accurate + b.addresses.accurate + b.phones.accurate + b.ages.accurate +
    b.emails.accurate

/-- The whole tallying loop of `calculate_accuracy` (lines 40-95): fold every
record of every successful source into the breakdown; failed sources are
skipped (`continue`). -/
def breakdownOf (scraper_results : List SourceResult) (real_info : RealInfo) :
    Breakdown :=
  let t := real_info.norm
  scraper_results.foldl (fun b sr =>
    if sr.success then sr.results.foldl (recordBreakdown t) b else b) {}

/-- `AccuracyService.calculate_accuracy` (`accuracy_service.py` lines 14-106):
run the tallying loop, then derive the overall score, `0.0` when no data
points were seen. -/
def calculate_accuracy (scraper_results : List SourceResult)
    (real_info : RealInfo) : AccuracyResult :=
  let b := breakdownOf scraper_results real_info
  let total : Nat := b.totalSum
  let accurate : Nat := b.accurateSum
  let score : ℚ := if total > 0 then (accurate : ℚ) / (total : ℚ) * 100 else 0
  { accuracy_score := pyRound1 score
    data_points_total := total
    data_points_accurate := accurate
    breakdown := b }

/-! ## Verification-side definitions and concrete fixtures -/

/-- A submission no longer awaiting dispatch. -/
def nonPending (s : Submission) : Bool := s.status != SubmissionStatus.pending

/-- Executor-run invariant: every unit row belongs to the campaign row, and
the two counters sum to the number of units already driven to a terminal
state. -/
def Inv (st : ExecState) : Prop :=
  (∀ s ∈ st.subs, s.campaign_id = st.campaign.id) ∧
  st.campaign.submissions_completed + st.campaign.submissions_failed =
    st.subs.countP nonPending

/-- A stored campaign of user 1, used as a concrete fixture. -/
def campUser1 : Campaign :=
  { id := 5, user_id := 1, name := "a", status := CampaignStatus.draft }

/-- A stored draft campaign with id 1 owned by user 2, a concrete fixture. -/
def campUser2 : Campaign :=
  { id := 1, user_id := 2, name := "a", status := CampaignStatus.draft }

/-- A lookup environment where `truepeoplesearch` succeeds with three records
and `radaris` raises; every other key also raises. -/
def lenvMixed : LookupEnv :=
  ⟨fun s =>
    if s = "truepeoplesearch" then
      Except.ok { source := s, success := true, results := [{}, {}, {}] }
    else Except.error "connection reset"⟩

/-- The record and truth of the spec's worked example: name "John Smith",
age 35, one Boston address, against matching truth attributes. -/
def johnRecord : PersonRecordData :=
  { name := some "John Smith"
    age := some 35
    addresses := ["123 Main St, Boston, MA 02101"] }

/-- The truth attributes of the spec's worked example. -/
def johnTruth : RealInfo :=
  { first_name := some "John"
    last_name := some "Smith"
    city := some "Boston"
    state := some "MA"
    age := some 35 }

/-- The spec example's single successful source result. -/
def johnSource : SourceResult :=
  { source := "x", success := true, results := [johnRecord] }

/-- An execution environment whose every plugin call succeeds immediately. -/
def envAllOk : ExecEnv := ⟨fun _ _ => PluginOutcome.success (some "ref"), 0, fun _ => false⟩

/-- An external writer that requests the (table-allowed) transition
`running → completed` just before the first unit is dispatched. -/
def interfComplete : Nat → Option String :=
  fun k => if k = 0 then some "completed" else none

/-- A fresh running campaign targeting one site, a concrete fixture. -/
def campRunning : Campaign :=
  { id := 1, user_id := 1, name := "c", status := CampaignStatus.running,
    target_sites := some ["aboutme"] }

/-- One pending unit for a site with a registered submitter. -/
def subPending : Submission :=
  { campaign_id := 1, site := "aboutme", status := SubmissionStatus.pending,
    profile_data := 0 }

/-- One pending unit for a site with no registered submitter. -/
def subNoPlugin : Submission :=
  { campaign_id := 1, site := "unknownsite", status := SubmissionStatus.pending,
    profile_data := 0 }

/-- Store with the running campaign and one pending unit. -/
def stOne : ExecState := ⟨campRunning, [subPending]⟩

/-- Store with the running campaign and one unit whose site has no plugin. -/
def stNoPlugin : ExecState := ⟨campRunning, [subNoPlugin]⟩

/-! ## Theorems: campaign service (CRUD, transition table, limits) -/

/-- C9: campaign creation clamps `target_count` to
`MAX_SUBMISSIONS_PER_CAMPAIGN` (silently, never an error), every created
campaign starts in `draft` satisfying the bound, while the per-user
campaign-count limit is enforced by raising a validation error. -/
theorem create_campaign_clamps_target_count (settings : Settings)
    (store : List Campaign) (user_id : Nat) (name : String)
    (description : Option String) (target_sites : Option (List String))
    (target_count : Int) (newId : Nat) :
    ((store.filter (fun c => c.user_id = user_id)).length <
        settings.MAX_CAMPAIGNS_PER_USER →
      ∃ c, create_campaign settings store user_id name description target_sites
          target_count newId = Except.ok c ∧
        c.target_count = min target_count settings.MAX_SUBMISSIONS_PER_CAMPAIGN ∧
        c.target_count ≤ settings.MAX_SUBMISSIONS_PER_CAMPAIGN ∧
        c.status = CampaignStatus.draft) ∧
    (settings.MAX_CAMPAIGNS_PER_USER ≤
        (store.filter (fun c => c.user_id = user_id)).length →
      create_campaign settings store user_id name description target_sites
          target_count newId =
        Except.error ("Campaign limit reached (" ++
          toString settings.MAX_CAMPAIGNS_PER_USER ++ ")")) := by
  constructor
  · intro hlt
    unfold create_campaign
    rw [if_neg (by omega)]
    exact ⟨_, rfl, rfl, min_le_right _ _, rfl⟩
  · intro hge
    unfold create_campaign
    rw [if_pos (by omega)]

/-- Witness for C9: with one existing campaign of user 1 and a limit of 10,
creating with requested `target_count = 1000` succeeds, clamped to 100. -/
theorem create_campaign_clamps_target_count_witness :
    (([campUser1].filter (fun c => c.user_id = 1)).length < (10 : Nat)) ∧
    (∃ c, create_campaign {} [campUser1] 1 "b" none (some ["aboutme"]) 1000 6 =
          Except.ok c ∧
      c.target_count = min 1000 (100 : Int) ∧
      c.target_count ≤ (100 : Int) ∧
      c.status = CampaignStatus.draft) :=
  ⟨by decide,
   (create_campaign_clamps_target_count {} [campUser1] 1 "b" none
     (some ["aboutme"]) 1000 6).1 (by decide)⟩

/-- C10: every campaign read, update or delete with a user id that does not
own the campaign returns `none` / `none` / `False` and leaves the store
untouched. -/
theorem campaign_crud_scoped_to_owner (store : List Campaign)
    (campaign_id user_id : Nat) (u : CampaignUpdates)
    (h : ∀ c ∈ store, c.id = campaign_id → c.user_id ≠ user_id) :
    get_campaign store campaign_id user_id = none ∧
    update_campaign store campaign_id user_id u = Except.ok none ∧
    delete_campaign store campaign_id user_id = (false, store) := by
  have hfind : get_campaign store campaign_id user_id = none := by
    unfold get_campaign
    rw [List.find?_eq_none]
    intro c hc
    simp only [Bool.and_eq_true, decide_eq_true_eq, not_and]
    exact fun hid => h c hc hid
  refine ⟨hfind, ?_, ?_⟩
  · unfold update_campaign
    rw [hfind]
  · unfold delete_campaign
    rw [hfind]

/-- Witness for C10: campaign 1 is owned by user 2; user 3's read, update and
delete all come back empty-handed with the store unchanged. -/
theorem campaign_crud_scoped_to_owner_witness :
    (∀ c ∈ [campUser2], c.id = 1 → c.user_id ≠ 3) ∧
    (get_campaign [campUser2] 1 3 = none ∧
     update_campaign [campUser2] 1 3 { status := some "running" } =
       Except.ok none ∧
     delete_campaign [campUser2] 1 3 = (false, [campUser2])) :=
  ⟨by decide,
   campaign_crud_scoped_to_owner [campUser2] 1 3 { status := some "running" }
     (by decide)⟩

/-- C2: a requested status change through `update_campaign` succeeds exactly
when the (current, new) pair is in `ALLOWED_TRANSITIONS`; outside the table
it raises a `ValueError` naming the attempted from→to, producing no updated
state. -/
theorem update_campaign_respects_transition_table (store : List Campaign)
    (campaign_id user_id : Nat) (u : CampaignUpdates) (c : Campaign)
    (ns : String) (hfind : get_campaign store campaign_id user_id = some c)
    (hstatus : u.status = some ns) :
    ((ALLOWED_TRANSITIONS c.status.value).contains ns = true ↔
      ∃ out, update_campaign store campaign_id user_id u = Except.ok out) ∧
    ((ALLOWED_TRANSITIONS c.status.value).contains ns = false →
      update_campaign store campaign_id user_id u =
        Except.error ("Cannot transition from '" ++ c.status.value ++ "' to '" ++
          ns ++ "'")) := by
  have hred : update_campaign store campaign_id user_id u =
      if (ALLOWED_TRANSITIONS c.status.value).contains ns then
        Except.ok (some
          (applyFieldUpdates
            { c with status := (CampaignStatus.ofValue ns).getD c.status } u,
           replaceCampaign store campaign_id user_id
            (applyFieldUpdates
              { c with status := (CampaignStatus.ofValue ns).getD c.status } u)))
      else
        Except.error ("Cannot transition from '" ++ c.status.value ++ "' to '" ++
          ns ++ "'") := by
    unfold update_campaign
    rw [hfind, hstatus]
  constructor
  · constructor
    · intro hal
      rw [hred, if_pos hal]
      exact ⟨_, rfl⟩
    · intro ⟨out, hout⟩
      by_contra hno
      rw [hred, if_neg (by simpa using hno)] at hout
      exact Except.noConfusion hout
  · intro hno
    rw [hred, if_neg (by rw [hno]; exact Bool.false_ne_true)]

/-- Witness for C2: on the stored `draft` campaign, the attempted transition
`draft → completed` is outside the table, so the update raises the
validation error naming the pair. -/
theorem update_campaign_respects_transition_table_witness :
    (get_campaign [campUser2] 1 2 = some campUser2) ∧
    (((ALLOWED_TRANSITIONS campUser2.status.value).contains "completed" =
        true ↔
      ∃ out, update_campaign [campUser2] 1 2 { status := some "completed" } =
        Except.ok out) ∧
     ((ALLOWED_TRANSITIONS campUser2.status.value).contains "completed" =
        false →
      update_campaign [campUser2] 1 2 { status := some "completed" } =
        Except.error ("Cannot transition from '" ++ campUser2.status.value ++
          "' to '" ++ "completed" ++ "'"))) :=
  ⟨by decide,
   update_campaign_respects_transition_table [campUser2] 1 2
     { status := some "completed" } campUser2 "completed" (by decide) rfl⟩

/-! ## Theorems: lookup coordinator -/

/-- C4: over a non-empty resolved source list, a raised exception in one
source is recorded as a failed-source result at that source's position
without touching any other source's result; the envelope still reports
`success=true`, `sources_successful` counts exactly the successful per-source
results, and `total_records_found` sums record counts over successful sources
only. -/
theorem search_person_isolates_source_failures (env : LookupEnv)
    (ls : LookupSettings) (req : List String)
    (h : req.filter (fun s => SCRAPERS.contains s) ≠ []) :
    (search_person env ls (some req)).success = true ∧
    (search_person env ls (some req)).results.length =
      (req.filter (fun s => SCRAPERS.contains s)).length ∧
    (search_person env ls (some req)).sources_successful =
      (((search_person env ls (some req)).results.filter
        (fun x => x.success)).length) ∧
    (search_person env ls (some req)).total_records_found =
      ((((search_person env ls (some req)).results.filter
        (fun x => x.success)).map (fun x => x.results.length)).sum) ∧
    (∀ i, ∀ hi : i < (req.filter (fun s => SCRAPERS.contains s)).length,
      (∀ v, env.scrape ((req.filter (fun s => SCRAPERS.contains s)).get ⟨i, hi⟩) =
          Except.ok v →
        (search_person env ls (some req)).results.get? i = some v) ∧
      (∀ e, env.scrape ((req.filter (fun s => SCRAPERS.contains s)).get ⟨i, hi⟩) =
          Except.error e →
        (search_person env ls (some req)).results.get? i =
          some { source := (req.filter (fun s => SCRAPERS.contains s)).get ⟨i, hi⟩
                 success := false
                 results := []
                 error := some e })) := by
  have hne : (req.filter (fun s => SCRAPERS.contains s)).isEmpty = false := by
    cases hh : req.filter (fun s => SCRAPERS.contains s) with
    | nil => exact absurd hh h
    | cons a t => rfl
  have hred : search_person env ls (some req) =
      { success := true
        sources_searched := (req.filter (fun s => SCRAPERS.contains s)).length
        sources_successful :=
          (((req.filter (fun s => SCRAPERS.contains s)).map (fun s =>
            match env.scrape s with
            | Except.ok r => r
            | Except.error e =>
              { source := s, success := false, results := [], error := some e })).filter
                (fun r => r.success)).length
        total_records_found :=
          ((((req.filter (fun s => SCRAPERS.contains s)).map (fun s =>
            match env.scrape s with
            | Except.ok r => r
            | Except.error e =>
              { source := s, success := false, results := [], error := some e })).filter
                (fun r => r.success)).map (fun r => r.results.length)).sum
        results := (req.filter (fun s => SCRAPERS.contains s)).map (fun s =>
            match env.scrape s with
            | Except.ok r => r
            | Except.error e =>
              { source := s, success := false, results := [], error := some e }) } := by
    have hstep : search_person env ls (some req) =
        if (req.filter (fun s => SCRAPERS.contains s)).isEmpty then
          { success := false, error := some "No valid sources specified",
            results := [] }
        else
          { success := true
            sources_searched := (req.filter (fun s => SCRAPERS.contains s)).length
            sources_successful :=
              (((req.filter (fun s => SCRAPERS.contains s)).map (fun s =>
                match env.scrape s with
                | Except.ok r => r
                | Except.error e =>
                  { source := s, success := false, results := [],
                    error := some e })).filter (fun r => r.success)).length
            total_records_found :=
              ((((req.filter (fun s => SCRAPERS.contains s)).map (fun s =>
                match env.scrape s with
                | Except.ok r => r
                | Except.error e =>
                  { source := s, success := false, results := [],
                    error := some e })).filter (fun r => r.success)).map
                      (fun r => r.results.length)).sum
            results := (req.filter (fun s => SCRAPERS.contains s)).map (fun s =>
                match env.scrape s with
                | Except.ok r => r
                | Except.error e =>
                  { source := s, success := false, results := [],
                    error := some e }) } := rfl
    rw [hstep, if_neg (by rw [hne]; exact Bool.false_ne_true)]
  refine ⟨by rw [hred], by rw [hred]; exact List.length_map _ _,
    by rw [hred], by rw [hred], ?_⟩
  intro i hi
  have hget : (search_person env ls (some req)).results.get? i =
      some (match env.scrape ((req.filter (fun s => SCRAPERS.contains s)).get ⟨i, hi⟩) with
        | Except.ok r => r
        | Except.error e =>
          { source := (req.filter (fun s => SCRAPERS.contains s)).get ⟨i, hi⟩
            success := false
            results := []
            error := some e }) := by
    rw [hred]
    simp only [List.get?_eq_getElem?, List.getElem?_map]
    rw [List.getElem?_eq_getElem hi]
    rfl
  constructor
  · intro v hv
    rw [hget, hv]
  · intro e he
    rw [hget, he]

/-- Witness for C4: requesting two sources where one succeeds with 3 records
and one raises yields a `success=true` envelope with the failure isolated. -/
theorem search_person_isolates_source_failures_witness :
    ((["truepeoplesearch", "radaris"].filter (fun s => SCRAPERS.contains s)) ≠
      ([] : List String)) ∧
    ((search_person lenvMixed {} (some ["truepeoplesearch", "radaris"])).success =
        true ∧
     (search_person lenvMixed {} (some ["truepeoplesearch", "radaris"])).results.length =
      (["truepeoplesearch", "radaris"].filter (fun s => SCRAPERS.contains s)).length ∧
     (search_person lenvMixed {} (some ["truepeoplesearch", "radaris"])).sources_successful =
      (((search_person lenvMixed {} (some ["truepeoplesearch", "radaris"])).results.filter
        (fun x => x.success)).length) ∧
     (search_person lenvMixed {} (some ["truepeoplesearch", "radaris"])).total_records_found =
      ((((search_person lenvMixed {} (some ["truepeoplesearch", "radaris"])).results.filter
        (fun x => x.success)).map (fun x => x.results.length)).sum) ∧
     (∀ i, ∀ hi : i <
        (["truepeoplesearch", "radaris"].filter (fun s => SCRAPERS.contains s)).length,
      (∀ v, lenvMixed.scrape
          ((["truepeoplesearch", "radaris"].filter (fun s => SCRAPERS.contains s)).get
            ⟨i, hi⟩) = Except.ok v →
        (search_person lenvMixed {} (some ["truepeoplesearch", "radaris"])).results.get? i =
          some v) ∧
      (∀ e, lenvMixed.scrape
          ((["truepeoplesearch", "radaris"].filter (fun s => SCRAPERS.contains s)).get
            ⟨i, hi⟩) = Except.error e →
        (search_person lenvMixed {} (some ["truepeoplesearch", "radaris"])).results.get? i =
          some { source :=
                   (["truepeoplesearch", "radaris"].filter
                     (fun s => SCRAPERS.contains s)).get ⟨i, hi⟩
                 success := false
                 results := []
                 error := some e }))) :=
  ⟨by decide,
   search_person_isolates_source_failures lenvMixed {}
     ["truepeoplesearch", "radaris"] (by decide)⟩

/-- The concrete aggregate counts of the spec's two-source scenario, computed
on the embedding. -/
theorem search_person_two_source_example :
    (search_person lenvMixed {} (some ["truepeoplesearch", "radaris"])).sources_searched =
        2 ∧
    (search_person lenvMixed {} (some ["truepeoplesearch", "radaris"])).sources_successful =
        1 ∧
    (search_person lenvMixed {} (some ["truepeoplesearch", "radaris"])).total_records_found =
        3 := by
  decide

/-- C6 counterexample: requesting `["truepeoplesearch", "bogus"]` (one valid
key, one unknown key that is silently dropped) yields `sources_searched = 1`,
not the number of requested keys, 2: the code reassigns `sources` to the
filtered list before computing `len(sources)`. -/
theorem sources_searched_drops_unknown_keys_cex :
    (search_person lenvMixed {} (some ["truepeoplesearch", "bogus"])).sources_searched =
        1 ∧
    (["truepeoplesearch", "bogus"] : List String).length = 2 ∧
    (search_person lenvMixed {} (some ["truepeoplesearch", "bogus"])).sources_searched ≠
      (["truepeoplesearch", "bogus"] : List String).length := by
  decide

/-- C6 amended: `sources_searched` equals the number of requested keys that
resolve in the scraper registry (unknown keys are dropped before counting),
whenever at least one key resolves. -/
theorem sources_searched_counts_resolved_keys (env : LookupEnv)
    (ls : LookupSettings) (req : List String)
    (h : req.filter (fun s => SCRAPERS.contains s) ≠ []) :
    (search_person env ls (some req)).sources_searched =
      (req.filter (fun s => SCRAPERS.contains s)).length := by
  have hne : (req.filter (fun s => SCRAPERS.contains s)).isEmpty = false := by
    cases hh : req.filter (fun s => SCRAPERS.contains s) with
    | nil => exact absurd hh h
    | cons a t => rfl
  have hstep : search_person env ls (some req) =
      if (req.filter (fun s => SCRAPERS.contains s)).isEmpty then
        { success := false, error := some "No valid sources specified",
          results := [] }
      else
        { success := true
          sources_searched := (req.filter (fun s => SCRAPERS.contains s)).length
          sources_successful :=
            (((req.filter (fun s => SCRAPERS.contains s)).map (fun s =>
              match env.scrape s with
              | Except.ok r => r
              | Except.error e =>
                { source := s, success := false, results := [],
                  error := some e })).filter (fun r => r.success)).length
          total_records_found :=
            ((((req.filter (fun s => SCRAPERS.contains s)).map (fun s =>
              match env.scrape s with
              | Except.ok r => r
              | Except.error e =>
                { source := s, success := false, results := [],
                  error := some e })).filter (fun r => r.success)).map
                    (fun r => r.results.length)).sum
          results := (req.filter (fun s => SCRAPERS.contains s)).map (fun s =>
              match env.scrape s with
              | Except.ok r => r
              | Except.error e =>
                { source := s, success := false, results := [],
                  error := some e }) } := rfl
  rw [hstep, if_neg (by rw [hne]; exact Bool.false_ne_true)]

/-- Witness for the amended C6 at the counterexample's own input. -/
theorem sources_searched_counts_resolved_keys_witness :
    ((["truepeoplesearch", "bogus"].filter (fun s => SCRAPERS.contains s)) ≠
      ([] : List String)) ∧
    (search_person lenvMixed {} (some ["truepeoplesearch", "bogus"])).sources_searched =
      (["truepeoplesearch", "bogus"].filter (fun s => SCRAPERS.contains s)).length :=
  ⟨by decide,
   sources_searched_counts_resolved_keys lenvMixed {} ["truepeoplesearch", "bogus"]
     (by decide)⟩

/-! ## Theorems: accuracy scorer -/

/-- `pyRound1 0 = 0`. -/
theorem pyRound1_zero : pyRound1 0 = 0 := by
  have h0 : roundHalfEven 0 = 0 := by
    unfold roundHalfEven
    norm_num
  unfold pyRound1
  norm_num [h0]

/-- C5: the scorer's result satisfies
`accuracy_score = round1(100 * accurate / total)` whenever `total > 0` and is
`0.0` when `total = 0`; the reported totals are exactly the sums of the
returned per-category breakdown, and an empty result list yields score `0`
with zero data points and an all-zero (but present) breakdown. -/
theorem calculate_accuracy_score_formula (scraper_results : List SourceResult)
    (real_info : RealInfo) :
    ((calculate_accuracy scraper_results real_info).data_points_total > 0 →
      (calculate_accuracy scraper_results real_info).accuracy_score =
        pyRound1 (100 *
          ((calculate_accuracy scraper_results real_info).data_points_accurate : ℚ) /
          ((calculate_accuracy scraper_results real_info).data_points_total : ℚ))) ∧
    ((calculate_accuracy scraper_results real_info).data_points_total = 0 →
      (calculate_accuracy scraper_results real_info).accuracy_score = 0) ∧
    (calculate_accuracy scraper_results real_info).data_points_total =
      (calculate_accuracy scraper_results real_info).breakdown.totalSum ∧
    (calculate_accuracy scraper_results real_info).data_points_accurate =
      (calculate_accuracy scraper_results real_info).breakdown.accurateSum ∧
    calculate_accuracy [] real_info =
      { accuracy_score := 0, data_points_total := 0, data_points_accurate := 0,
        breakdown := {} } := by
  have hstep : ∀ rs : List SourceResult, calculate_accuracy rs real_info =
      { accuracy_score :=
          pyRound1 (if (breakdownOf rs real_info).totalSum > 0 then
            ((breakdownOf rs real_info).accurateSum : ℚ) /
              ((breakdownOf rs real_info).totalSum : ℚ) * 100
          else 0)
        data_points_total := (breakdownOf rs real_info).totalSum
        data_points_accurate := (breakdownOf rs real_info).accurateSum
        breakdown := breakdownOf rs real_info } := fun _ => rfl
  refine ⟨?_, ?_, by rw [hstep], by rw [hstep], ?_⟩
  · intro hpos
    rw [hstep] at hpos ⊢
    simp only at hpos ⊢
    rw [if_pos hpos]
    congr 1
    ring
  · intro hz
    rw [hstep] at hz ⊢
    simp only at hz ⊢
    rw [if_neg (by omega)]
    exact pyRound1_zero
  · rw [hstep]
    have hb : breakdownOf [] real_info = {} := rfl
    rw [hb]
    have : (Breakdown.totalSum {} = 0) ∧ (Breakdown.accurateSum {} = 0) := by
      constructor <;> rfl
    rw [this.1, this.2]
    simp only [gt_iff_lt, lt_irrefl, if_false]
    rw [pyRound1_zero]

/-- Witness for C5 at the spec's worked example (three data points, all
accurate, score 100.0). -/
theorem calculate_accuracy_score_formula_witness :
    ((calculate_accuracy [johnSource]
        johnTruth).data_points_total > 0 →
      (calculate_accuracy [johnSource]
        johnTruth).accuracy_score =
        pyRound1 (100 *
          ((calculate_accuracy [johnSource] johnTruth).data_points_accurate : ℚ) /
          ((calculate_accuracy [johnSource] johnTruth).data_points_total : ℚ))) ∧
    ((calculate_accuracy [johnSource]
        johnTruth).data_points_total = 0 →
      (calculate_accuracy [johnSource]
        johnTruth).accuracy_score = 0) ∧
    (calculate_accuracy [johnSource]
        johnTruth).data_points_total =
      (calculate_accuracy [johnSource]
        johnTruth).breakdown.totalSum ∧
    (calculate_accuracy [johnSource]
        johnTruth).data_points_accurate =
      (calculate_accuracy [johnSource]
        johnTruth).breakdown.accurateSum ∧
    calculate_accuracy [] johnTruth =
      { accuracy_score := 0, data_points_total := 0, data_points_accurate := 0,
        breakdown := {} } :=
  calculate_accuracy_score_formula
    [johnSource] johnTruth

/-- The concrete outcome of the spec's worked example, computed on the
embedding: all three data points accurate, score exactly 100. -/
theorem calculate_accuracy_example_is_100 :
    (calculate_accuracy [johnSource] johnTruth).accuracy_score = 100 ∧
    (calculate_accuracy [johnSource] johnTruth).data_points_total = 3 := by
  have hb : breakdownOf [johnSource] johnTruth =
      { names := ⟨1, 1⟩, addresses := ⟨1, 1⟩, phones := ⟨0, 0⟩, ages := ⟨1, 1⟩,
        emails := ⟨0, 0⟩ } := by decide
  have hstep : calculate_accuracy [johnSource] johnTruth =
      { accuracy_score :=
          pyRound1 (if (breakdownOf [johnSource] johnTruth).totalSum > 0 then
            ((breakdownOf [johnSource] johnTruth).accurateSum : ℚ) /
              ((breakdownOf [johnSource] johnTruth).totalSum : ℚ) * 100
          else 0)
        data_points_total := (breakdownOf [johnSource] johnTruth).totalSum
        data_points_accurate := (breakdownOf [johnSource] johnTruth).accurateSum
        breakdown := breakdownOf [johnSource] johnTruth } := rfl
  rw [hstep, hb]
  refine ⟨?_, rfl⟩
  show pyRound1 (if (3 : Nat) > 0 then ((3 : Nat) : ℚ) / ((3 : Nat) : ℚ) * 100
    else 0) = 100
  norm_num [pyRound1, roundHalfEven]

/-! ## Theorems: submission coordinator and campaign executor -/

/-- C8: dispatching a pending unit whose site key has no registered submitter
marks the unit `skipped` with a diagnostic naming the site, increments the
owning campaign's `submissions_failed` by exactly 1, and leaves
`submissions_completed` unchanged. -/
theorem submit_single_no_plugin (env : ExecEnv) (st : ExecState) (sid : Nat)
    (sub : Submission)
    (hget : st.subs.get? sid = some sub)
    (hpend : sub.status = SubmissionStatus.pending)
    (hplug : get_submitter sub.site = none)
    (hown : st.campaign.id = sub.campaign_id) :
    submitSingle env st sid =
      { campaign := { st.campaign with
          submissions_failed := st.campaign.submissions_failed + 1 }
        subs := st.subs.set sid { sub with
          status := SubmissionStatus.skipped
          error_message := some ("No submitter for site: " ++ sub.site) } } := by
  simp only [submitSingle, hget, hpend, hplug, applyOutcome, hown, ne_eq,
    not_true_eq_false, if_false]
  rfl

/-- C3: dispatching a pending unit with a registered plugin: success makes
the unit `submitted` with timestamp and stored reference id and increments
`submissions_completed` by exactly 1; a business failure, a timeout and an
unexpected exception each make the unit `failed` — with the truncated
(≤ 500 characters) plugin message, the timeout-specific message, and the
truncated exception text respectively — and increment `submissions_failed`
by exactly 1. -/
theorem submit_single_outcomes (env : ExecEnv) (st : ExecState) (sid : Nat)
    (sub : Submission)
    (hget : st.subs.get? sid = some sub)
    (hpend : sub.status = SubmissionStatus.pending)
    (hplug : (get_submitter sub.site).isSome)
    (hown : st.campaign.id = sub.campaign_id) :
    (∀ rid, env.exec sub.site sub.profile_data = PluginOutcome.success rid →
      submitSingle env st sid =
        { campaign := { st.campaign with
            submissions_completed := st.campaign.submissions_completed + 1 }
          subs := st.subs.set sid { sub with
            status := SubmissionStatus.submitted
            submitted_at := some env.now
            reference_id := rid } }) ∧
    (∀ m, env.exec sub.site sub.profile_data = PluginOutcome.failure (some m) →
      m ≠ "" →
      submitSingle env st sid =
        { campaign := { st.campaign with
            submissions_failed := st.campaign.submissions_failed + 1 }
          subs := st.subs.set sid { sub with
            status := SubmissionStatus.failed
            error_message := some (pyTake m 500) } } ∧
      (pyTake m 500).length ≤ 500) ∧
    (env.exec sub.site sub.profile_data = PluginOutcome.timeout →
      submitSingle env st sid =
        { campaign := { st.campaign with
            submissions_failed := st.campaign.submissions_failed + 1 }
          subs := st.subs.set sid { sub with
            status := SubmissionStatus.failed
            error_message := some "Submission timed out after 120s" } }) ∧
    (∀ m, env.exec sub.site sub.profile_data = PluginOutcome.raised m →
      submitSingle env st sid =
        { campaign := { st.campaign with
            submissions_failed := st.campaign.submissions_failed + 1 }
          subs := st.subs.set sid { sub with
            status := SubmissionStatus.failed
            error_message := some (pyTake m 500) } } ∧
      (pyTake m 500).length ≤ 500) := by
  obtain ⟨k, hk⟩ := Option.isSome_iff_exists.mp hplug
  have hlen : ∀ m : String, (pyTake m 500).length ≤ 500 := by
    intro m
    show (m.toList.take 500).length ≤ 500
    simpa using List.length_take_le 500 m.toList
  refine ⟨?_, ?_, ?_, ?_⟩
  · intro rid hx
    simp only [submitSingle, hget, hpend, hk, hx, applyOutcome, hown, ne_eq,
      not_true_eq_false, if_false]
    rfl
  · intro m hx hm
    refine ⟨?_, hlen m⟩
    simp only [submitSingle, hget, hpend, hk, hx, applyOutcome, hown, ne_eq,
      not_true_eq_false, if_false, orUnknown]
    rw [if_neg hm]
    rfl
  · intro hx
    simp only [submitSingle, hget, hpend, hk, hx, applyOutcome, hown, ne_eq,
      not_true_eq_false, if_false]
    rfl
  · intro m hx
    refine ⟨?_, hlen m⟩
    simp only [submitSingle, hget, hpend, hk, hx, applyOutcome, hown, ne_eq,
      not_true_eq_false, if_false]
    rfl

theorem countP_set_incr {α : Type} (p : α → Bool) :
    ∀ (l : List α) (i : Nat) (x a : α), l.get? i = some x → p x = false →
      p a = true → (l.set i a).countP p = l.countP p + 1 := by
  intro l
  induction l with
  | nil => intro i x a hx; simp at hx
  | cons y t ih =>
    intro i x a hx hpx hpa
    cases i with
    | zero =>
      simp only [List.get?] at hx
      cases hx
      simp [List.set, List.countP_cons, hpx, hpa]
    | succ n =>
      simp only [List.get?] at hx
      simp only [List.set, List.countP_cons, ih t.length x a]
      rw [ih n x a hx hpx hpa]
      omega

theorem applyOutcome_campaign_id (st : ExecState) (sid : Nat)
    (sub' : Submission) (bump : CounterBump) :
    (applyOutcome st sid sub' bump).campaign.id = st.campaign.id := by
  cases bump <;> unfold applyOutcome <;> dsimp only <;> split <;> rfl

theorem applyOutcome_campaign_status (st : ExecState) (sid : Nat)
    (sub' : Submission) (bump : CounterBump) :
    (applyOutcome st sid sub' bump).campaign.status = st.campaign.status := by
  cases bump <;> unfold applyOutcome <;> dsimp only <;> split <;> rfl

theorem applyOutcome_subs (st : ExecState) (sid : Nat) (sub' : Submission)
    (bump : CounterBump) :
    (applyOutcome st sid sub' bump).subs = st.subs.set sid sub' := by
  cases bump <;> rfl

theorem applyOutcome_counters_sum (st : ExecState) (sid : Nat)
    (sub' : Submission) (bump : CounterBump)
    (h : st.campaign.id = sub'.campaign_id) :
    (applyOutcome st sid sub' bump).campaign.submissions_completed +
      (applyOutcome st sid sub' bump).campaign.submissions_failed =
    st.campaign.submissions_completed + st.campaign.submissions_failed + 1 := by
  cases bump <;> simp [applyOutcome, h] <;> omega

/-- `_submit_single` either leaves the store untouched (missing or already
terminal unit) or drives the pending unit at `sid` to a terminal state via
`applyOutcome`. -/
theorem submitSingle_cases (env : ExecEnv) (st : ExecState) (sid : Nat) :
    (submitSingle env st sid = st ∧
      (st.subs.get? sid = none ∨
       ∃ sub, st.subs.get? sid = some sub ∧ nonPending sub = true)) ∨
    (∃ sub sub' bump, st.subs.get? sid = some sub ∧
      sub.status = SubmissionStatus.pending ∧
      sub'.campaign_id = sub.campaign_id ∧ nonPending sub' = true ∧
      submitSingle env st sid = applyOutcome st sid sub' bump) := by
  cases hget : st.subs.get? sid with
  | none =>
    left
    constructor
    · unfold submitSingle
      rw [hget]
    · exact Or.inl rfl
  | some sub =>
    by_cases hp : sub.status = SubmissionStatus.pending
    · right
      cases hk : get_submitter sub.site with
      | none =>
        refine ⟨sub, { sub with
            status := SubmissionStatus.skipped
            error_message := some ("No submitter for site: " ++ sub.site) },
          CounterBump.failedCount, rfl, hp, rfl, rfl, ?_⟩
        simp only [submitSingle, hget, hp, hk, ne_eq, not_true_eq_false,
          if_false]
      | some k =>
        cases hx : env.exec sub.site sub.profile_data with
        | success rid =>
          refine ⟨sub, { sub with
              status := SubmissionStatus.submitted
              submitted_at := some env.now
              reference_id := rid },
            CounterBump.completedCount, rfl, hp, rfl, rfl, ?_⟩
          simp only [submitSingle, hget, hp, hk, hx, ne_eq, not_true_eq_false,
            if_false]
        | failure err =>
          refine ⟨sub, { sub with
              status := SubmissionStatus.failed
              error_message := some (pyTake (orUnknown err) 500) },
            CounterBump.failedCount, rfl, hp, rfl, rfl, ?_⟩
          simp only [submitSingle, hget, hp, hk, hx, ne_eq, not_true_eq_false,
            if_false]
        | timeout =>
          refine ⟨sub, { sub with
              status := SubmissionStatus.failed
              error_message := some "Submission timed out after 120s" },
            CounterBump.failedCount, rfl, hp, rfl, rfl, ?_⟩
          simp only [submitSingle, hget, hp, hk, hx, ne_eq, not_true_eq_false,
            if_false]
        | raised msg =>
          refine ⟨sub, { sub with
              status := SubmissionStatus.failed
              error_message := some (pyTake msg 500) },
            CounterBump.failedCount, rfl, hp, rfl, rfl, ?_⟩
          simp only [submitSingle, hget, hp, hk, hx, ne_eq, not_true_eq_false,
            if_false]
    · left
      constructor
      · simp only [submitSingle, hget, ne_eq, hp, not_false_eq_true, if_true]
      · refine Or.inr ⟨sub, rfl, ?_⟩
        simp [nonPending, hp]

theorem submitSingle_campaign_id (env : ExecEnv) (st : ExecState) (sid : Nat) :
    (submitSingle env st sid).campaign.id = st.campaign.id := by
  rcases submitSingle_cases env st sid with ⟨heq, _⟩ | ⟨_, _, _, _, _, _, _, heq⟩
  · rw [heq]
  · rw [heq, applyOutcome_campaign_id]

theorem submitSingle_campaign_status (env : ExecEnv) (st : ExecState)
    (sid : Nat) :
    (submitSingle env st sid).campaign.status = st.campaign.status := by
  rcases submitSingle_cases env st sid with ⟨heq, _⟩ | ⟨_, _, _, _, _, _, _, heq⟩
  · rw [heq]
  · rw [heq, applyOutcome_campaign_status]

theorem submitSingle_subs_length (env : ExecEnv) (st : ExecState) (sid : Nat) :
    (submitSingle env st sid).subs.length = st.subs.length := by
  rcases submitSingle_cases env st sid with ⟨heq, _⟩ | ⟨_, _, _, _, _, _, _, heq⟩
  · rw [heq]
  · rw [heq, applyOutcome_subs, List.length_set]

/-- A unit already terminal is left completely unchanged by `_submit_single`,
whatever id is dispatched. -/
theorem submitSingle_preserves_done (env : ExecEnv) (st : ExecState)
    (sid i : Nat) (s : Submission) (hi : st.subs.get? i = some s)
    (hs : nonPending s = true) :
    (submitSingle env st sid).subs.get? i = some s := by
  rcases submitSingle_cases env st sid with ⟨heq, _⟩ |
    ⟨sub, sub', bump, hget, hp, _, _, heq⟩
  · rw [heq, hi]
  · rw [heq, applyOutcome_subs]
    by_cases hii : sid = i
    · subst hii
      rw [hget] at hi
      cases hi
      simp [nonPending, hp] at hs
    · rw [List.get?_set_ne _ _ hii, hi]

/-- After dispatching id `sid` (in range), the unit at `sid` is terminal. -/
theorem submitSingle_sets_done (env : ExecEnv) (st : ExecState) (sid : Nat)
    (hlt : sid < st.subs.length) :
    ∃ s, (submitSingle env st sid).subs.get? sid = some s ∧
      nonPending s = true := by
  rcases submitSingle_cases env st sid with ⟨heq, hwhy⟩ |
    ⟨sub, sub', bump, hget, hp, _, hnp, heq⟩
  · rcases hwhy with hnone | ⟨sub, hget, hnp⟩
    · rw [List.get?_eq_none] at hnone
      omega
    · exact ⟨sub, by rw [heq, hget], hnp⟩
  · refine ⟨sub', ?_, hnp⟩
    rw [heq, applyOutcome_subs]
    exact List.get?_set_eq_of_lt _ (by simpa using hlt)

theorem submitSingle_inv (env : ExecEnv) (st : ExecState) (sid : Nat)
    (h : Inv st) : Inv (submitSingle env st sid) := by
  rcases submitSingle_cases env st sid with ⟨heq, _⟩ |
    ⟨sub, sub', bump, hget, hp, hcid, hnp, heq⟩
  · rw [heq]; exact h
  · rw [heq]
    have hmem : sub ∈ st.subs := List.get?_mem hget
    have hown : st.campaign.id = sub'.campaign_id := by
      rw [hcid, h.1 sub hmem]
    constructor
    · intro s hs
      rw [applyOutcome_campaign_id]
      rw [applyOutcome_subs] at hs
      rcases List.mem_or_eq_of_mem_set hs with hmem' | rfl
      · exact h.1 s hmem'
      · rw [hcid]; exact h.1 sub hmem
    · rw [applyOutcome_counters_sum _ _ _ _ hown, applyOutcome_subs,
        countP_set_incr nonPending st.subs sid sub sub' hget
          (by simp [nonPending, hp]) hnp, h.2]

theorem applyExternalStatus_shape (c : Campaign) (o : Option String) :
    ∃ s, applyExternalStatus c o = { c with status := s } := by
  cases o with
  | none => exact ⟨c.status, rfl⟩
  | some ns =>
    unfold applyExternalStatus
    dsimp only
    by_cases hc : (ALLOWED_TRANSITIONS c.status.value).contains ns
    · rw [if_pos hc]
      exact ⟨_, rfl⟩
    · rw [if_neg hc]
      exact ⟨c.status, rfl⟩

theorem Inv_set_status (st : ExecState) (s : CampaignStatus) (h : Inv st) :
    Inv { st with campaign := { st.campaign with status := s } } := by
  exact ⟨fun x hx => h.1 x hx, h.2⟩

theorem Inv_applyExternalStatus (st : ExecState) (o : Option String)
    (h : Inv st) : Inv { st with campaign := applyExternalStatus st.campaign o } := by
  obtain ⟨s, hs⟩ := applyExternalStatus_shape st.campaign o
  rw [hs]
  exact Inv_set_status st s h

theorem runUnits_nil_eq (env : ExecEnv) (interf : Nat → Option String)
    (k : Nat) (st : ExecState) :
    runUnits env interf k [] st =
      (let st1 : ExecState :=
        { st with campaign := applyExternalStatus st.campaign (interf k) }
      let st2 :=
        if st1.campaign.status = CampaignStatus.running
        then { st1 with campaign :=
          { st1.campaign with status := CampaignStatus.completed } }
        else st1
      ⟨st2, [st2], []⟩) := rfl

theorem runUnits_cons_eq (env : ExecEnv) (interf : Nat → Option String)
    (k sid : Nat) (rest : List Nat) (st : ExecState) :
    runUnits env interf k (sid :: rest) st =
      (if env.cancelled k then ⟨st, [st], []⟩
      else
        let st1 : ExecState :=
          { st with campaign := applyExternalStatus st.campaign (interf k) }
        if st1.campaign.status ≠ CampaignStatus.running then ⟨st1, [st1], []⟩
        else
          let st2 := submitSingle env st1 sid
          let r := runUnits env interf (k + 1) rest st2
          ⟨r.final, st1 :: st2 :: r.trace, sid :: r.dispatched⟩) := rfl

theorem runUnits_cancelled (env : ExecEnv) (interf : Nat → Option String)
    (k sid : Nat) (rest : List Nat) (st : ExecState)
    (hc : env.cancelled k = true) :
    runUnits env interf k (sid :: rest) st = ⟨st, [st], []⟩ := by
  rw [runUnits_cons_eq]
  rw [hc]
  rfl

theorem runUnits_stopped (env : ExecEnv) (interf : Nat → Option String)
    (k sid : Nat) (rest : List Nat) (st : ExecState)
    (hc : env.cancelled k = false)
    (hrun : (applyExternalStatus st.campaign (interf k)).status ≠
      CampaignStatus.running) :
    runUnits env interf k (sid :: rest) st =
      ⟨{ st with campaign := applyExternalStatus st.campaign (interf k) },
       [{ st with campaign := applyExternalStatus st.campaign (interf k) }],
       []⟩ := by
  rw [runUnits_cons_eq, hc, if_neg Bool.false_ne_true]
  dsimp only
  rw [if_pos hrun]

theorem runUnits_step (env : ExecEnv) (interf : Nat → Option String)
    (k sid : Nat) (rest : List Nat) (st : ExecState)
    (hc : env.cancelled k = false)
    (hrun : (applyExternalStatus st.campaign (interf k)).status =
      CampaignStatus.running) :
    runUnits env interf k (sid :: rest) st =
      ⟨(runUnits env interf (k + 1) rest (submitSingle env
          { st with campaign := applyExternalStatus st.campaign (interf k) }
          sid)).final,
       { st with campaign := applyExternalStatus st.campaign (interf k) } ::
         submitSingle env
           { st with campaign := applyExternalStatus st.campaign (interf k) }
           sid ::
         (runUnits env interf (k + 1) rest (submitSingle env
           { st with campaign := applyExternalStatus st.campaign (interf k) }
           sid)).trace,
       sid :: (runUnits env interf (k + 1) rest (submitSingle env
         { st with campaign := applyExternalStatus st.campaign (interf k) }
         sid)).dispatched⟩ := by
  rw [runUnits_cons_eq, hc, if_neg Bool.false_ne_true]
  dsimp only
  rw [if_neg (not_not_intro hrun)]

/-- The run invariant holds at the final state and at every intermediate
state of the unit loop. -/
theorem runUnits_inv (env : ExecEnv) (interf : Nat → Option String) :
    ∀ (ids : List Nat) (k : Nat) (st : ExecState), Inv st →
      Inv (runUnits env interf k ids st).final ∧
      ∀ st' ∈ (runUnits env interf k ids st).trace, Inv st' := by
  intro ids
  induction ids with
  | nil =>
    intro k st h
    have h1 : Inv { st with campaign := applyExternalStatus st.campaign (interf k) } :=
      Inv_applyExternalStatus st (interf k) h
    rw [runUnits_nil_eq]
    dsimp only
    split
    · exact ⟨Inv_set_status _ _ h1, by
        intro st' hst'
        rw [List.mem_singleton] at hst'
        subst hst'
        exact Inv_set_status _ _ h1⟩
    · exact ⟨h1, by
        intro st' hst'
        rw [List.mem_singleton] at hst'
        subst hst'
        exact h1⟩
  | cons sid rest ih =>
    intro k st h
    have h1 : Inv { st with campaign := applyExternalStatus st.campaign (interf k) } :=
      Inv_applyExternalStatus st (interf k) h
    cases hcanc : env.cancelled k with
    | true =>
      rw [runUnits_cancelled env interf k sid rest st hcanc]
      exact ⟨h, by
        intro st' hst'
        rw [List.mem_singleton] at hst'
        subst hst'
        exact h⟩
    | false =>
      by_cases hrun : (applyExternalStatus st.campaign (interf k)).status =
          CampaignStatus.running
      · rw [runUnits_step env interf k sid rest st hcanc hrun]
        have h2 : Inv (submitSingle env
            { st with campaign := applyExternalStatus st.campaign (interf k) }
            sid) := submitSingle_inv env _ sid h1
        obtain ⟨hfin, htrace⟩ := ih (k + 1) _ h2
        refine ⟨hfin, ?_⟩
        intro st' hst'
        rcases hst' with _ | ⟨_, hst2⟩
        · exact h1
        rcases hst2 with _ | ⟨_, hst3⟩
        · exact h2
        · exact htrace st' hst3
      · rw [runUnits_stopped env interf k sid rest st hcanc hrun]
        exact ⟨h1, by
          intro st' hst'
          rw [List.mem_singleton] at hst'
          subst hst'
          exact h1⟩

/-- Any unit already terminal keeps its exact row through the whole loop,
whatever cancellation, interference and plugin behaviour occur. -/
theorem runUnits_preserves_done (env : ExecEnv) (interf : Nat → Option String) :
    ∀ (ids : List Nat) (k : Nat) (st : ExecState) (i : Nat) (s : Submission),
      st.subs.get? i = some s → nonPending s = true →
      (runUnits env interf k ids st).final.subs.get? i = some s := by
  intro ids
  induction ids with
  | nil =>
    intro k st i s hi hs
    rw [runUnits_nil_eq]
    dsimp only
    split
    · exact hi
    · exact hi
  | cons sid rest ih =>
    intro k st i s hi hs
    cases hcanc : env.cancelled k with
    | true =>
      rw [runUnits_cancelled env interf k sid rest st hcanc]
      exact hi
    | false =>
      by_cases hrun : (applyExternalStatus st.campaign (interf k)).status =
          CampaignStatus.running
      · rw [runUnits_step env interf k sid rest st hcanc hrun]
        exact ih (k + 1) _ i s
          (submitSingle_preserves_done env _ sid i s hi hs) hs
      · rw [runUnits_stopped env interf k sid rest st hcanc hrun]
        exact hi

/-- With no cancellation and no external status write, a loop started on a
`running` campaign dispatches every listed unit in order, drives each listed
(in-range) unit to a terminal state, and ends with the campaign `completed`. -/
theorem runUnits_complete (env : ExecEnv) (interf : Nat → Option String)
    (hnc : ∀ k, env.cancelled k = false) (hni : ∀ k, interf k = none) :
    ∀ (ids : List Nat) (k : Nat) (st : ExecState),
      st.campaign.status = CampaignStatus.running →
      (runUnits env interf k ids st).dispatched = ids ∧
      (runUnits env interf k ids st).final.campaign.status =
        CampaignStatus.completed ∧
      (runUnits env interf k ids st).final.subs.length = st.subs.length ∧
      (∀ i ∈ ids, i < st.subs.length →
        ∃ s, (runUnits env interf k ids st).final.subs.get? i = some s ∧
          nonPending s = true) := by
  intro ids
  induction ids with
  | nil =>
    intro k st hrun
    rw [runUnits_nil_eq]
    dsimp only
    rw [hni k]
    rw [show applyExternalStatus st.campaign none = st.campaign from rfl]
    rw [if_pos hrun]
    refine ⟨rfl, rfl, rfl, ?_⟩
    intro i hi
    simp at hi
  | cons sid rest ih =>
    intro k st hrun
    have hrun1 : (applyExternalStatus st.campaign (interf k)).status =
        CampaignStatus.running := by
      rw [hni k]
      exact hrun
    rw [runUnits_step env interf k sid rest st (hnc k) hrun1]
    have hst1 : ({ st with campaign := applyExternalStatus st.campaign (interf k) } :
        ExecState) = st := by
      rw [hni k]
      rfl
    rw [hst1]
    have hrun2 : (submitSingle env st sid).campaign.status =
        CampaignStatus.running := by
      rw [submitSingle_campaign_status]
      exact hrun
    obtain ⟨hd, hs, hl, hp⟩ := ih (k + 1) (submitSingle env st sid) hrun2
    refine ⟨by rw [hd], hs, by rw [hl, submitSingle_subs_length], ?_⟩
    intro i hi hlt
    rcases List.mem_cons.mp hi with rfl | hmem
    · obtain ⟨s, hgs, hnp⟩ := submitSingle_sets_done env st i
        (by rw [← submitSingle_subs_length env st i] at hlt; 
            rw [submitSingle_subs_length] at hlt; exact hlt)
      exact ⟨s, runUnits_preserves_done env interf rest (k + 1) _ i s hgs hnp, hnp⟩
    · exact hp i hmem (by rw [submitSingle_subs_length]; exact hlt)

theorem mkSubmissions_mem (cid : Nat) (profiles : List Nat)
    (sites : List String) (s : Submission)
    (h : s ∈ mkSubmissions cid profiles sites) :
    s.campaign_id = cid ∧ s.status = SubmissionStatus.pending := by
  unfold mkSubmissions at h
  rw [List.mem_flatten] at h
  obtain ⟨l, hl, hs⟩ := h
  rw [List.mem_map] at hl
  obtain ⟨p, _, rfl⟩ := hl
  rw [List.mem_map] at hs
  obtain ⟨site, _, rfl⟩ := hs
  exact ⟨rfl, rfl⟩

theorem Inv_start (c : Campaign) (profiles : List Nat) (sites : List String)
    (hc : c.submissions_completed = 0) (hf : c.submissions_failed = 0) :
    Inv ⟨c, mkSubmissions c.id profiles sites⟩ := by
  constructor
  · intro s hs
    exact (mkSubmissions_mem c.id profiles sites s hs).1
  · have hz : (mkSubmissions c.id profiles sites).countP nonPending = 0 := by
      rw [List.countP_eq_zero]
      intro s hs
      have := (mkSubmissions_mem c.id profiles sites s hs).2
      simp [nonPending, this]
    dsimp only
    rw [hz, hc, hf]

theorem executeCampaign_eq (env : ExecEnv) (interf : Nat → Option String)
    (profiles : List Nat) (c : Campaign) :
    executeCampaign env interf profiles c =
      (if (c.target_sites.getD []).isEmpty then
        ⟨⟨{ c with status := CampaignStatus.failed }, []⟩,
         [⟨{ c with status := CampaignStatus.failed }, []⟩], []⟩
      else if (mkSubmissions c.id profiles (c.target_sites.getD [])).isEmpty then
        ⟨⟨{ c with status := CampaignStatus.completed },
          mkSubmissions c.id profiles (c.target_sites.getD [])⟩,
         [⟨{ c with status := CampaignStatus.completed },
           mkSubmissions c.id profiles (c.target_sites.getD [])⟩], []⟩
      else
        runUnits env interf 0
          (List.range (mkSubmissions c.id profiles (c.target_sites.getD [])).length)
          ⟨c, mkSubmissions c.id profiles (c.target_sites.getD [])⟩) := rfl

theorem resumeCampaign_eq (env : ExecEnv) (interf : Nat → Option String)
    (st0 : ExecState) :
    resumeCampaign env interf st0 =
      (if (pendingIds st0.subs).isEmpty then
        ⟨{ st0 with campaign :=
            { st0.campaign with status := CampaignStatus.completed } },
         [{ st0 with campaign :=
            { st0.campaign with status := CampaignStatus.completed } }], []⟩
      else runUnits env interf 0 (pendingIds st0.subs) st0) := rfl

theorem pendingIds_mem (subs : List Submission) (i : Nat) :
    i ∈ pendingIds subs ↔
      ∃ s, subs.get? i = some s ∧ s.status = SubmissionStatus.pending := by
  unfold pendingIds
  rw [List.mem_filter, List.mem_range]
  constructor
  · intro ⟨hlt, hp⟩
    cases hget : subs.get? i with
    | none =>
      rw [hget] at hp
      simp at hp
    | some s =>
      rw [hget] at hp
      refine ⟨s, rfl, ?_⟩
      simpa using hp
  · intro ⟨s, hget, hp⟩
    have hlt : i < subs.length := by
      by_contra hge
      rw [List.get?_eq_none.mpr (by omega)] at hget
      exact Option.noConfusion hget
    refine ⟨hlt, ?_⟩
    rw [hget]
    simpa using hp

/-- C1 (amended): on a fresh campaign, at every intermediate point of the run
`submissions_completed + submissions_failed` is bounded by the number of
units created, and an uninterrupted run started on a `running` campaign ends
in `completed` (or `failed` with no units, for an empty site list) with the
counters summing to exactly the number of units created. -/
theorem campaign_counters_invariant (env : ExecEnv)
    (interf : Nat → Option String) (profiles : List Nat) (c : Campaign)
    (hc0 : c.submissions_completed = 0) (hf0 : c.submissions_failed = 0) :
    (∀ st' ∈ (executeCampaign env interf profiles c).trace,
      st'.campaign.submissions_completed + st'.campaign.submissions_failed ≤
        st'.subs.length) ∧
    ((∀ k, env.cancelled k = false) → (∀ k, interf k = none) →
      c.status = CampaignStatus.running →
      ((executeCampaign env interf profiles c).final.campaign.status =
          CampaignStatus.completed ∨
       (executeCampaign env interf profiles c).final.campaign.status =
          CampaignStatus.failed) ∧
      (executeCampaign env interf profiles c).final.campaign.submissions_completed +
        (executeCampaign env interf profiles c).final.campaign.submissions_failed =
        (executeCampaign env interf profiles c).final.subs.length) := by
  rw [executeCampaign_eq]
  by_cases hsites : (c.target_sites.getD []).isEmpty
  · rw [if_pos hsites]
    constructor
    · intro st' hst'
      rw [List.mem_singleton] at hst'
      subst hst'
      simp [hc0, hf0]
    · intro _ _ _
      exact ⟨Or.inr rfl, by simp [hc0, hf0]⟩
  · rw [if_neg hsites]
    by_cases hsubs : (mkSubmissions c.id profiles (c.target_sites.getD [])).isEmpty
    · rw [if_pos hsubs]
      rw [List.isEmpty_iff] at hsubs
      constructor
      · intro st' hst'
        rw [List.mem_singleton] at hst'
        subst hst'
        simp [hc0, hf0, hsubs]
      · intro _ _ _
        exact ⟨Or.inl rfl, by simp [hc0, hf0, hsubs]⟩
    · rw [if_neg hsubs]
      have hinv0 : Inv ⟨c, mkSubmissions c.id profiles (c.target_sites.getD [])⟩ :=
        Inv_start c profiles _ hc0 hf0
      obtain ⟨hfin, htrace⟩ := runUnits_inv env interf
        (List.range (mkSubmissions c.id profiles (c.target_sites.getD [])).length)
        0 ⟨c, mkSubmissions c.id profiles (c.target_sites.getD [])⟩ hinv0
      constructor
      · intro st' hst'
        rw [(htrace st' hst').2]
        exact List.countP_le_length nonPending
      · intro hnc hni hrunning
        obtain ⟨hd, hs, hl, hp⟩ := runUnits_complete env interf hnc hni
          (List.range (mkSubmissions c.id profiles (c.target_sites.getD [])).length)
          0 ⟨c, mkSubmissions c.id profiles (c.target_sites.getD [])⟩ hrunning
        refine ⟨Or.inl hs, ?_⟩
        rw [hfin.2]
        rw [List.countP_eq_length]
        intro a ha
        obtain ⟨i, hi⟩ := List.mem_iff_get?.mp ha
        have hlt : i < (runUnits env interf 0
            (List.range (mkSubmissions c.id profiles (c.target_sites.getD [])).length)
            ⟨c, mkSubmissions c.id profiles (c.target_sites.getD [])⟩).final.subs.length := by
          by_contra hge
          rw [List.get?_eq_none.mpr (by omega)] at hi
          exact Option.noConfusion hi
        rw [hl] at hlt
        obtain ⟨s, hgets, hnp⟩ := hp i (List.mem_range.mpr hlt) hlt
        rw [hi] at hgets
        cases hgets
        exact hnp

/-- C7: a Resume leaves every already-terminal unit completely unchanged;
with no pending units it transitions directly to `completed` dispatching
nothing; and an uninterrupted resume of a `running` campaign dispatches
exactly the pending units, in id order. -/
theorem resume_dispatches_exactly_pending (env : ExecEnv)
    (interf : Nat → Option String) (st0 : ExecState) :
    (∀ i s, st0.subs.get? i = some s →
      s.status ≠ SubmissionStatus.pending →
      (resumeCampaign env interf st0).final.subs.get? i = some s) ∧
    (pendingIds st0.subs = [] →
      (resumeCampaign env interf st0).final.campaign.status =
        CampaignStatus.completed ∧
      (resumeCampaign env interf st0).dispatched = [] ∧
      (resumeCampaign env interf st0).final.subs = st0.subs) ∧
    ((∀ k, env.cancelled k = false) → (∀ k, interf k = none) →
      st0.campaign.status = CampaignStatus.running →
      (resumeCampaign env interf st0).dispatched = pendingIds st0.subs) := by
  rw [resumeCampaign_eq]
  by_cases hpend : (pendingIds st0.subs).isEmpty
  · rw [if_pos hpend]
    rw [List.isEmpty_iff] at hpend
    exact ⟨fun i s hi _ => hi, fun _ => ⟨rfl, rfl, rfl⟩,
      fun _ _ _ => by rw [hpend]⟩
  · rw [if_neg hpend]
    refine ⟨?_, ?_, ?_⟩
    · intro i s hi hs
      exact runUnits_preserves_done env interf (pendingIds st0.subs) 0 st0 i s hi
        (by simp [nonPending, hs])
    · intro hnil
      rw [hnil] at hpend
      simp at hpend
    · intro hnc hni hrunning
      exact (runUnits_complete env interf hnc hni (pendingIds st0.subs) 0 st0
        hrunning).1


/-- C1 counterexample: start a fresh one-unit campaign; before the first unit
is dispatched an external writer performs the table-allowed transition
`running → completed` (as the update API may), the loop's status re-read
stops the run, and the campaign rests at `completed` with
`submissions_completed + submissions_failed = 0` while 1 unit was created:
equality does not hold at `completed`. -/
theorem campaign_counters_equality_cex :
    (ALLOWED_TRANSITIONS "running").contains "completed" = true ∧
    (executeCampaign envAllOk interfComplete [0] campRunning).final.campaign.status =
      CampaignStatus.completed ∧
    (executeCampaign envAllOk interfComplete [0] campRunning).final.subs.length = 1 ∧
    (executeCampaign envAllOk interfComplete [0]
        campRunning).final.campaign.submissions_completed +
      (executeCampaign envAllOk interfComplete [0]
        campRunning).final.campaign.submissions_failed = 0 ∧
    (executeCampaign envAllOk interfComplete [0]
        campRunning).final.campaign.submissions_completed +
      (executeCampaign envAllOk interfComplete [0]
        campRunning).final.campaign.submissions_failed ≠
      (executeCampaign envAllOk interfComplete [0] campRunning).final.subs.length := by
  decide

/-- Witness for C1 (amended) at a concrete uninterrupted one-unit run. -/
theorem campaign_counters_invariant_witness :
    (campRunning.submissions_completed = 0 ∧ campRunning.submissions_failed = 0) ∧
    ((∀ st' ∈ (executeCampaign envAllOk (fun _ => none) [0] campRunning).trace,
        st'.campaign.submissions_completed + st'.campaign.submissions_failed ≤
          st'.subs.length) ∧
     ((∀ k, envAllOk.cancelled k = false) → (∀ k, (fun _ => none : Nat → Option String) k = none) →
       campRunning.status = CampaignStatus.running →
       ((executeCampaign envAllOk (fun _ => none) [0] campRunning).final.campaign.status =
           CampaignStatus.completed ∨
        (executeCampaign envAllOk (fun _ => none) [0] campRunning).final.campaign.status =
           CampaignStatus.failed) ∧
       (executeCampaign envAllOk (fun _ => none) [0]
           campRunning).final.campaign.submissions_completed +
         (executeCampaign envAllOk (fun _ => none) [0]
           campRunning).final.campaign.submissions_failed =
         (executeCampaign envAllOk (fun _ => none) [0]
           campRunning).final.subs.length)) :=
  ⟨⟨rfl, rfl⟩,
   campaign_counters_invariant envAllOk (fun _ => none) [0] campRunning rfl rfl⟩

/-- Witness for C3: the success branch at a concrete pending unit. -/
theorem submit_single_outcomes_witness :
    (stOne.subs.get? 0 = some subPending ∧
     subPending.status = SubmissionStatus.pending ∧
     (get_submitter subPending.site).isSome = true ∧
     stOne.campaign.id = subPending.campaign_id) ∧
    ((∀ rid, envAllOk.exec subPending.site subPending.profile_data =
        PluginOutcome.success rid →
      submitSingle envAllOk stOne 0 =
        { campaign := { stOne.campaign with
            submissions_completed := stOne.campaign.submissions_completed + 1 }
          subs := stOne.subs.set 0 { subPending with
            status := SubmissionStatus.submitted
            submitted_at := some envAllOk.now
            reference_id := rid } }) ∧
     (∀ m, envAllOk.exec subPending.site subPending.profile_data =
        PluginOutcome.failure (some m) → m ≠ "" →
      submitSingle envAllOk stOne 0 =
        { campaign := { stOne.campaign with
            submissions_failed := stOne.campaign.submissions_failed + 1 }
          subs := stOne.subs.set 0 { subPending with
            status := SubmissionStatus.failed
            error_message := some (pyTake m 500) } } ∧
      (pyTake m 500).length ≤ 500) ∧
     (envAllOk.exec subPending.site subPending.profile_data =
        PluginOutcome.timeout →
      submitSingle envAllOk stOne 0 =
        { campaign := { stOne.campaign with
            submissions_failed := stOne.campaign.submissions_failed + 1 }
          subs := stOne.subs.set 0 { subPending with
            status := SubmissionStatus.failed
            error_message := some "Submission timed out after 120s" } }) ∧
     (∀ m, envAllOk.exec subPending.site subPending.profile_data =
        PluginOutcome.raised m →
      submitSingle envAllOk stOne 0 =
        { campaign := { stOne.campaign with
            submissions_failed := stOne.campaign.submissions_failed + 1 }
          subs := stOne.subs.set 0 { subPending with
            status := SubmissionStatus.failed
            error_message := some (pyTake m 500) } } ∧
      (pyTake m 500).length ≤ 500)) :=
  ⟨⟨by decide, by decide, by decide, by decide⟩,
   submit_single_outcomes envAllOk stOne 0 subPending (by decide) (by decide)
     (by decide) (by decide)⟩

/-- Witness for C8 at a concrete unit whose site has no submitter. -/
theorem submit_single_no_plugin_witness :
    (stNoPlugin.subs.get? 0 = some subNoPlugin ∧
     subNoPlugin.status = SubmissionStatus.pending ∧
     get_submitter subNoPlugin.site = none ∧
     stNoPlugin.campaign.id = subNoPlugin.campaign_id) ∧
    submitSingle envAllOk stNoPlugin 0 =
      { campaign := { stNoPlugin.campaign with
          submissions_failed := stNoPlugin.campaign.submissions_failed + 1 }
        subs := stNoPlugin.subs.set 0 { subNoPlugin with
          status := SubmissionStatus.skipped
          error_message := some ("No submitter for site: " ++ subNoPlugin.site) } } :=
  ⟨⟨by decide, by decide, by decide, by decide⟩,
   submit_single_no_plugin envAllOk stNoPlugin 0 subNoPlugin (by decide)
     (by decide) (by decide) (by decide)⟩

end Miasma
